import Mathlib

/-!
Verification of the persona routing and lifecycle subsystem.

A shallow embedding of the persona router (`PersonaRouter`), the persona
manager (`PersonaManagerClass`), the template catalog, and the onboarding
generator, together with proofs of the testable properties stated in the
specification.

Modelling conventions:
* JavaScript strings are Lean `String`s; the JS operations used by the code
  (`toLowerCase`, `trim`, `split`, the two regexes, `Math.min`/`Math.max`)
  are modelled character-by-character on `String.data`, restricted to the
  ASCII behaviour the code relies on.
* JS numbers carrying keyword weights and confidences are modelled as `ℚ`;
  every constant appearing in the code (`0.15`, `1.5`, `1.0`) is exactly
  representable in binary floating point, so the comparisons performed by
  the code coincide with the rational ones.
* Zero-argument accessor callbacks of `RouterConfig` become plain values;
  `getBySlug` keeps its argument.  The router's keyword cache is modelled
  transparently (the map is rebuilt from `getAllKeywords`), which is the
  behaviour after `invalidateCache()`/on a cold cache.
* JS `Map` is an insertion-ordered association list; `Array.prototype.sort`
  is a stable sort, modelled by a stable insertion sort.
* The `MemoryManager` store backing `PersonaManagerClass` is not part of
  the sources; it is modelled from the spec's store contract where needed
  (definitions marked `Modelled from the spec:`).
* Long free-text fields of the template catalog (`identity`,
  `system_prompt_prefix`) are abbreviated: no routing, seeding or
  generation logic inspects their contents (the generator only appends
  context sections to them), so they are inert for every property proved
  here.  All identifiers, slugs, flags, orders and keyword lists are exact.
-/

-- ---------------------------------------------------------------------------
-- Character classes and JS string primitives
-- ---------------------------------------------------------------------------

/-- JS regex `\w` (no `u` flag): ASCII letters, digits and underscore. -/
def isWordChar (c : Char) : Bool :=
  c.isAlphanum || c = '_'

/-- Character class `[a-z0-9]` used by the tokeniser and `generateId`
(both apply it to a lower-cased string). -/
def isLowerAlnum (c : Char) : Bool :=
  ('a' ≤ c && c ≤ 'z') || ('0' ≤ c && c ≤ '9')

/-- `String.prototype.toLowerCase`, ASCII fragment. -/
def lowerStr (s : String) : String :=
  String.mk (s.data.map Char.toLower)

/-- Drop trailing whitespace (helper for `jsTrim`). -/
def dropTrailingWs (l : List Char) : List Char :=
  (l.reverse.dropWhile Char.isWhitespace).reverse

/-- `String.prototype.trim`. -/
def jsTrim (s : String) : String :=
  String.mk (dropTrailingWs (s.data.dropWhile Char.isWhitespace))

/-- `Math.min(a, b)` on rationals. -/
def jsMin (a b : ℚ) : ℚ :=
  if a ≤ b then a else b

-- ---------------------------------------------------------------------------
-- Data model (src/personas/types.ts)
-- ---------------------------------------------------------------------------

/-- Core entity `Persona` (timestamps are store-owned and opaque to the
subsystem, hence omitted). -/
structure Persona where
  id : String
  name : String
  slug : String
  icon : String
  color : String
  role_title : String
  description : String
  identity : String
  instructions : String
  system_prompt_prefix : String
  is_default : Bool
  is_active : Bool
  sort_order : Int
deriving DecidableEq

/-- `PersonaRoutingKeyword`. -/
structure RoutingKeyword where
  id : Int
  persona_id : String
  keyword : String
  weight : ℚ
deriving DecidableEq

/-- The `method` discriminator of `PersonaRouteResult`. -/
inductive RouteMethod where
  | mention
  | intent
  | explicit
  | default
deriving DecidableEq

/-- `PersonaRouteResult`. -/
structure PersonaRouteResult where
  persona : Persona
  method : RouteMethod
  confidence : ℚ
  strippedMessage : Option String := none
deriving DecidableEq

/-- `PersonaTemplate` (seed data shape). -/
structure PersonaTemplate where
  id : String
  name : String
  slug : String
  icon : String
  color : String
  role_title : String
  description : String
  identity : String
  instructions : String
  system_prompt_prefix : String
  is_default : Bool
  sort_order : Int
  keywords : List String
deriving DecidableEq

/-- `StartupStage` enum. -/
inductive StartupStage where
  | idea
  | preSeed
  | seed
  | seriesA
  | growth
  | scale
deriving DecidableEq

/-- `FounderRole` enum. -/
inductive FounderRole where
  | technical
  | business
  | product
  | generalist
deriving DecidableEq

/-- `OnboardingAnswers`. -/
structure OnboardingAnswers where
  startup_stage : StartupStage
  founder_role : FounderRole
  gaps : List String
deriving DecidableEq

/-- `RouterConfig`: the accessor seam injected into the router.  The
zero-argument callbacks become plain values (they are pure reads). -/
structure RouterConfig where
  getPersonas : List Persona
  getBySlug : String → Option Persona
  getDefault : Option Persona
  getAllKeywords : List RoutingKeyword

-- ---------------------------------------------------------------------------
-- generateId (PersonaManagerClass.generateId)
-- ---------------------------------------------------------------------------

/-- First replacement of `generateId`: `replace(/[^a-z0-9]+/g, '-')` on the
lower-cased name.  `prevIsSep` records whether the current run of
non-alphanumeric characters has already emitted its single hyphen. -/
def collapseAux (prevIsSep : Bool) : List Char → List Char
  | [] => []
  | c :: cs =>
    if isLowerAlnum c then c :: collapseAux false cs
    else if prevIsSep then collapseAux true cs
    else '-' :: collapseAux true cs

/-- One leading hyphen removed — the `^-` alternative of
`replace(/(^-|-$)/g, '')`. -/
def dropOneLeading : List Char → List Char
  | [] => []
  | c :: rest => if c = '-' then rest else c :: rest

/-- One trailing hyphen removed — the `-$` alternative of
`replace(/(^-|-$)/g, '')`.  (The global regex removes at most one hyphen at
each end in a single pass.) -/
def dropOneTrailing : List Char → List Char
  | [] => []
  | [c] => if c = '-' then [] else [c]
  | a :: b :: rest => a :: dropOneTrailing (b :: rest)

/-- `PersonaManagerClass.generateId`: lower-case, collapse runs of
non-alphanumeric characters to single hyphens, strip edge hyphens. -/
def generateId (name : String) : String :=
  String.mk (dropOneTrailing (dropOneLeading (collapseAux false (name.data.map Char.toLower))))

/-- Removes every trailing hyphen (spec reading "trimming leading/trailing
hyphens"). -/
def dropTrailingAll : List Char → List Char
  | [] => []
  | c :: rest =>
    match dropTrailingAll rest with
    | [] => if c = '-' then [] else [c]
    | r => c :: r

/-- Spec-side slug derivation, following the specification's words: lower-case
the name, replace every maximal run of non-alphanumeric characters with a
single hyphen, remove all leading and trailing hyphens. -/
def generateIdSpecModel (name : String) : String :=
  String.mk (dropTrailingAll ((collapseAux false (name.data.map Char.toLower)).dropWhile (fun c => c = '-')))

/-- Detects a doubled hyphen (`--`) anywhere in the list. -/
def hasAdjacentHyphens : List Char → Bool
  | [] => false
  | [_] => false
  | a :: b :: rest => (a = '-' && b = '-') || hasAdjacentHyphens (b :: rest)

-- ---------------------------------------------------------------------------
-- Stage 1: @mention detection (PersonaRouter.detectMention)
-- ---------------------------------------------------------------------------

/-- Attempt to match the regex `(?:^|\s)@(\w+)` with the match starting at the
current position.  Returns the captured token and the remainder after the
match.  `isStart` is true exactly at index 0 (the `^` alternative). -/
def tryMentionHere (isStart : Bool) (cs : List Char) : Option (List Char × List Char) :=
  match cs with
  | '@' :: rest =>
    if isStart then
      if (rest.takeWhile isWordChar).isEmpty then none
      else some (rest.takeWhile isWordChar, rest.dropWhile isWordChar)
    else none
  | c :: '@' :: rest =>
    if c.isWhitespace then
      if (rest.takeWhile isWordChar).isEmpty then none
      else some (rest.takeWhile isWordChar, rest.dropWhile isWordChar)
    else none
  | _ => none

/-- Left-to-right scan of `String.prototype.match` for `(?:^|\s)@(\w+)`:
the first position admitting a match wins.  Returns
`(prefix before the match, captured token, suffix after the match)`;
the matched substring (the optional whitespace, the `@` and the token) is
what `replace` removes. -/
def findMentionAux : Bool → List Char → List Char → Option (List Char × List Char × List Char)
  | isStart, beforeRev, [] =>
    Option.map (fun x => (beforeRev.reverse, x.1, x.2)) (tryMentionHere isStart [])
  | isStart, beforeRev, c :: rest =>
    Option.orElse
      (Option.map (fun x => (beforeRev.reverse, x.1, x.2)) (tryMentionHere isStart (c :: rest)))
      (fun _ => findMentionAux false (c :: beforeRev) rest)

/-- `PersonaRouter.detectMention`. -/
def detectMention (cfg : RouterConfig) (message : String) : Option PersonaRouteResult :=
  match findMentionAux true [] message.data with
  | none => none
  | some (pre, tok, post) =>
    let slug := lowerStr (String.mk tok)
    match cfg.getBySlug slug with
    | none => none
    | some persona =>
      if persona.is_active then
        let stripped := jsTrim (String.mk (pre ++ post))
        some { persona := persona, method := RouteMethod.mention, confidence := 1,
               strippedMessage := some (if stripped = "" then message else stripped) }
      else none

-- ---------------------------------------------------------------------------
-- Stage 2: keyword-based intent classification (PersonaRouter.classifyIntent)
-- ---------------------------------------------------------------------------

/-- Minimum normalised score to accept an intent match (`MIN_THRESHOLD`). -/
def MIN_THRESHOLD : ℚ := 15 / 100

/-- Winner must score at least this multiple of the runner-up
(`DOMINANCE_RATIO` in the source; renamed here). -/
def DOMINANCE_FACTOR : ℚ := 3 / 2

/-- Minimum token length to keep after tokenisation (`MIN_TOKEN_LENGTH`). -/
def MIN_TOKEN_LENGTH : Nat := 3

/-- Splits a character list into its maximal runs of `[a-z0-9]` characters —
the behaviour of `split(/[^a-z0-9]+/)` after the empty fragments produced at
the ends are discarded (they are dropped by the length filter anyway).
`cur` accumulates the current run in reverse. -/
def splitRunsAux (cur : List Char) : List Char → List (List Char)
  | [] => if cur.isEmpty then [] else [cur.reverse]
  | c :: cs =>
    if isLowerAlnum c then splitRunsAux (c :: cur) cs
    else if cur.isEmpty then splitRunsAux [] cs
    else cur.reverse :: splitRunsAux [] cs

/-- Tokenise a message: lower-case, split on runs of non-alphanumeric
characters, keep tokens of length at least `MIN_TOKEN_LENGTH`. -/
def tokenizeWords (message : String) : List String :=
  ((splitRunsAux [] (message.data.map Char.toLower)).filter
    (fun w => MIN_TOKEN_LENGTH ≤ w.length)).map String.mk

/-- Adjacent bigrams: `words[i] ++ " " ++ words[i+1]`. -/
def bigrams : List String → List String
  | a :: b :: rest => (a ++ " " ++ b) :: bigrams (b :: rest)
  | _ => []

/-- Unigrams followed by adjacent bigrams, the candidate phrase list. -/
def phrasesOf (words : List String) : List String :=
  words ++ bigrams words

/-- Insertion-ordered association list standing for a JS `Map`. -/
def kmAdd (key : String) (pid : String) (w : ℚ) :
    List (String × List (String × ℚ)) → List (String × List (String × ℚ))
  | [] => [(key, [(pid, w)])]
  | (k, entry) :: rest =>
    if k = key then (k, entry ++ [(pid, w)]) :: rest
    else (k, entry) :: kmAdd key pid w rest

/-- `PersonaRouter.getKeywordMap` (rebuilt from `getAllKeywords`; the lazy
cache is modelled transparently). -/
def buildKeywordMap (kws : List RoutingKeyword) : List (String × List (String × ℚ)) :=
  kws.foldl (fun m kw => kmAdd (lowerStr kw.keyword) kw.persona_id kw.weight m) []

/-- `Map.get`. -/
def kmGet (key : String) (m : List (String × List (String × ℚ))) : Option (List (String × ℚ)) :=
  Option.map Prod.snd (m.find? (fun e => e.1 = key))

/-- `Map.set` for the score map: overwrite in place, append when absent. -/
def mapSet (k : String) (v : ℚ) : List (String × ℚ) → List (String × ℚ)
  | [] => [(k, v)]
  | (k', v') :: rest => if k' = k then (k, v) :: rest else (k', v') :: mapSet k v rest

/-- `Map.get` for the score map. -/
def mapGet (k : String) (m : List (String × ℚ)) : Option ℚ :=
  Option.map Prod.snd (m.find? (fun e => e.1 = k))

/-- One phrase's contribution: `scores.set(pid, (scores.get(pid) || 0) + weight)`
for each `(pid, weight)` registered under the phrase. -/
def addMatches (ms : List (String × ℚ)) (sc : List (String × ℚ)) : List (String × ℚ) :=
  ms.foldl (fun sc2 e => mapSet e.1 ((mapGet e.1 sc2).getD 0 + e.2) sc2) sc

/-- The accumulated per-persona scores for a message. -/
def scoresFor (cfg : RouterConfig) (message : String) : List (String × ℚ) :=
  (phrasesOf (tokenizeWords message)).foldl
    (fun sc phrase =>
      match kmGet phrase (buildKeywordMap cfg.getAllKeywords) with
      | none => sc
      | some ms => addMatches ms sc) []

/-- Stable insertion of one entry into a list sorted by descending score:
the entry moves ahead only of strictly smaller scores, so earlier insertions
win ties — the behaviour of the stable `sort((a, b) => b[1] - a[1])`. -/
def insertDesc (x : String × ℚ) : List (String × ℚ) → List (String × ℚ)
  | [] => [x]
  | y :: ys => if y.2 < x.2 then x :: y :: ys else y :: insertDesc x ys

/-- Stable descending sort by score. -/
def sortDesc (l : List (String × ℚ)) : List (String × ℚ) :=
  l.foldl (fun acc x => insertDesc x acc) []

/-- The gate `defaultPersona && topId === defaultPersona.id`. -/
def isDefaultId (d : Option Persona) (topId : String) : Bool :=
  match d with
  | some dp => topId = dp.id
  | none => false

/-- `PersonaRouter.classifyIntent`. -/
def classifyIntent (cfg : RouterConfig) (message : String) : Option PersonaRouteResult :=
  if (buildKeywordMap cfg.getAllKeywords).isEmpty then none
  else
    let words := tokenizeWords message
    if words.isEmpty then none
    else
      let scores := scoresFor cfg message
      if scores.isEmpty then none
      else
        match sortDesc scores with
        | [] => none
        | (topId, topScore) :: restSorted =>
          let secondScore : ℚ := match restSorted with
            | [] => 0
            | e :: _ => e.2
          let normalizedScore := topScore / (Nat.max words.length 1 : ℚ)
          if normalizedScore < MIN_THRESHOLD then none
          else if 0 < secondScore ∧ topScore < secondScore * DOMINANCE_FACTOR then none
          else if isDefaultId cfg.getDefault topId then none
          else
            match cfg.getPersonas.find? (fun p => p.id = topId) with
            | none => none
            | some persona =>
              some { persona := persona, method := RouteMethod.intent,
                     confidence := jsMin normalizedScore 1, strippedMessage := none }

-- ---------------------------------------------------------------------------
-- route (PersonaRouter.route)
-- ---------------------------------------------------------------------------

/-- `PersonaRouter.route`: mention, then intent, then default fallback;
throwing is modelled by `Except.error`. -/
def route (cfg : RouterConfig) (message : String) : Except String PersonaRouteResult :=
  match detectMention cfg message with
  | some r => Except.ok r
  | none =>
    match classifyIntent cfg message with
    | some r => Except.ok r
    | none =>
      match cfg.getDefault with
      | some dp =>
        Except.ok { persona := dp, method := RouteMethod.default, confidence := 1 }
      | none => Except.error "No default persona configured"

-- ---------------------------------------------------------------------------
-- Template catalog (src/personas/templates.ts)
-- ---------------------------------------------------------------------------

/-- Template 1: Chief of Staff (the default). -/
def CHIEF_OF_STAFF : PersonaTemplate :=
  { id := "chief-of-staff", name := "Chief of Staff", slug := "cos",
    icon := "crown", color := "#a855f7",
    role_title := "Chief of Staff & Executive Assistant",
    description := "Your strategic right hand — prioritizes, coordinates, keeps things on track",
    identity := "You are the Chief of Staff (identity text abridged)",
    instructions := "",
    system_prompt_prefix := "## Active Persona: Chief of Staff (directive abridged)",
    is_default := true, sort_order := 0,
    keywords := ["strategy", "prioritize", "coordinate", "agenda", "meeting",
      "brief", "update", "status", "decision", "plan", "roadmap", "delegate",
      "hire", "team", "org", "process", "todo", "schedule", "deadline", "focus"] }

/-- Template 2: Growth Advisor. -/
def GROWTH_ADVISOR : PersonaTemplate :=
  { id := "growth-advisor", name := "Growth Advisor", slug := "growth",
    icon := "trending-up", color := "#22c55e",
    role_title := "Growth & Marketing Strategist",
    description := "User acquisition, retention, funnels, and growth experiments",
    identity := "You are the Growth Advisor (identity text abridged)",
    instructions := "",
    system_prompt_prefix := "## Active Persona: Growth Advisor (directive abridged)",
    is_default := false, sort_order := 1,
    keywords := ["growth", "marketing", "acquisition", "retention", "funnel",
      "conversion", "SEO", "ads", "campaign", "landing page", "churn", "viral",
      "referral", "content", "social media", "CAC", "LTV", "organic", "paid",
      "traffic", "engagement", "newsletter", "email marketing", "A/B test"] }

/-- Template 3: Finance & Ops Advisor. -/
def FINANCE_OPS : PersonaTemplate :=
  { id := "finance-ops", name := "Finance & Ops Advisor", slug := "finance",
    icon := "calculator", color := "#f59e0b",
    role_title := "CFO & Operations Advisor",
    description := "Financial modeling, fundraising, burn rate, and operational efficiency",
    identity := "You are the Finance & Operations advisor (identity text abridged)",
    instructions := "",
    system_prompt_prefix := "## Active Persona: Finance & Ops Advisor (directive abridged)",
    is_default := false, sort_order := 2,
    keywords := ["finance", "budget", "burn rate", "runway", "fundraise",
      "investor", "valuation", "cap table", "revenue", "projections", "P&L",
      "cash flow", "unit economics", "term sheet", "equity", "dilution",
      "SAFE", "convertible", "invoice", "expense", "tax", "accounting", "payroll"] }

/-- Template 4: Product Manager. -/
def PRODUCT_MANAGER : PersonaTemplate :=
  { id := "product-manager", name := "Product Manager", slug := "product",
    icon := "layout", color := "#3b82f6",
    role_title := "Product Strategy Advisor",
    description := "Feature prioritization, specs, user research, and roadmap management",
    identity := "You are the Product Manager advisor (identity text abridged)",
    instructions := "",
    system_prompt_prefix := "## Active Persona: Product Manager (directive abridged)",
    is_default := false, sort_order := 3,
    keywords := ["product", "feature", "spec", "PRD", "user story", "sprint",
      "roadmap", "backlog", "MVP", "user research", "competitive", "prioritize",
      "UX", "wireframe", "prototype", "beta", "launch", "feedback", "metrics",
      "OKR", "requirement", "scope"] }

/-- Template 5: Sales Advisor. -/
def SALES_ADVISOR : PersonaTemplate :=
  { id := "sales-advisor", name := "Sales Advisor", slug := "sales",
    icon := "handshake", color := "#ef4444",
    role_title := "Sales & Revenue Advisor",
    description := "Pipeline management, outreach, deal closing, and sales strategy",
    identity := "You are the Sales Advisor (identity text abridged)",
    instructions := "",
    system_prompt_prefix := "## Active Persona: Sales Advisor (directive abridged)",
    is_default := false, sort_order := 4,
    keywords := ["sales", "pipeline", "deal", "close", "prospect", "outreach",
      "cold email", "demo", "pricing", "objection", "negotiation", "CRM",
      "lead", "qualified", "discovery", "contract", "partnership", "BD",
      "revenue", "quota", "commission"] }

/-- Template 6: Legal Advisor. -/
def LEGAL_ADVISOR : PersonaTemplate :=
  { id := "legal-advisor", name := "Legal Advisor", slug := "legal",
    icon := "shield", color := "#6366f1",
    role_title := "Legal & Compliance Advisor",
    description := "Contracts, IP, compliance, and startup legal matters",
    identity := "You are the Legal Advisor (identity text abridged)",
    instructions := "",
    system_prompt_prefix := "## Active Persona: Legal Advisor (directive abridged)",
    is_default := false, sort_order := 5,
    keywords := ["legal", "contract", "terms", "privacy", "compliance", "GDPR",
      "IP", "patent", "trademark", "NDA", "incorporation", "entity",
      "employment", "offer letter", "equity agreement", "liability",
      "regulation", "copyright", "license"] }

/-- Template 7: Creative Director. -/
def CREATIVE_DIRECTOR : PersonaTemplate :=
  { id := "creative-director", name := "Creative Director", slug := "creative",
    icon := "palette", color := "#ec4899",
    role_title := "Brand & Creative Director",
    description := "Brand strategy, content creation, messaging, and visual direction",
    identity := "You are the Creative Director (identity text abridged)",
    instructions := "",
    system_prompt_prefix := "## Active Persona: Creative Director (directive abridged)",
    is_default := false, sort_order := 6,
    keywords := ["brand", "design", "creative", "copy", "messaging", "tone",
      "voice", "visual", "logo", "color palette", "typography", "content",
      "storytelling", "campaign", "presentation", "deck", "social",
      "aesthetic", "tagline", "headline"] }

/-- Template 8: CTO / Tech Advisor. -/
def CTO_TECH : PersonaTemplate :=
  { id := "cto-tech", name := "CTO / Tech Advisor", slug := "cto",
    icon := "cpu", color := "#06b6d4",
    role_title := "CTO & Technical Advisor",
    description := "Architecture decisions, tech stack, engineering, and infrastructure",
    identity := "You are the CTO / Tech Advisor (identity text abridged)",
    instructions := "",
    system_prompt_prefix := "## Active Persona: CTO / Tech Advisor (directive abridged)",
    is_default := false, sort_order := 7,
    keywords := ["architecture", "stack", "infrastructure", "API", "database",
      "deployment", "DevOps", "CI/CD", "security", "scalability",
      "microservices", "monolith", "cloud", "AWS", "technical debt",
      "code review", "engineering", "backend", "frontend", "mobile",
      "performance", "testing"] }

/-- `PERSONA_TEMPLATES`: all 8 default persona templates in `sort_order`. -/
def PERSONA_TEMPLATES : List PersonaTemplate :=
  [CHIEF_OF_STAFF, GROWTH_ADVISOR, FINANCE_OPS, PRODUCT_MANAGER,
   SALES_ADVISOR, LEGAL_ADVISOR, CREATIVE_DIRECTOR, CTO_TECH]

/-- `getDefaultTemplates`: a deep copy of every template (in a pure model the
copy is the identity; the copy of the keyword list is kept to mirror the
source). -/
def getDefaultTemplates : List PersonaTemplate :=
  PERSONA_TEMPLATES.map (fun t => { t with keywords := t.keywords })

-- ---------------------------------------------------------------------------
-- Onboarding generator (src/personas/generator.ts)
-- ---------------------------------------------------------------------------

/-- `GAP_TO_PERSONA`: maps gap selection identifiers to template ids. -/
def GAP_TO_PERSONA (gap : String) : Option String :=
  if gap = "strategy" then some "chief-of-staff"
  else if gap = "growth" then some "growth-advisor"
  else if gap = "finance" then some "finance-ops"
  else if gap = "product" then some "product-manager"
  else if gap = "sales" then some "sales-advisor"
  else if gap = "legal" then some "legal-advisor"
  else if gap = "creative" then some "creative-director"
  else if gap = "tech" then some "cto-tech"
  else none

/-- `STAGE_CONTEXT`: stage-specific context appended to every persona. -/
def STAGE_CONTEXT : StartupStage → String
  | StartupStage.idea =>
    "The startup is at the idea stage. Focus on validation, lean experiments, finding problem-market fit, and early user discovery. Resources are extremely limited — prioritize ruthlessly."
  | StartupStage.preSeed =>
    "The startup is pre-seed. Focus on MVP development, early user feedback, and preparing for initial fundraising. Help the founder iterate fast and talk to customers."
  | StartupStage.seed =>
    "The startup is seed-stage with early traction. Focus on product-market fit signals, early metrics that matter, and building the founding team. Unit economics are starting to matter."
  | StartupStage.seriesA =>
    "The startup is Series A — growth mode activated. Focus on scaling what works, hiring key functional leaders, and establishing repeatable processes. Metrics and efficiency matter now."
  | StartupStage.growth =>
    "The startup is in growth stage. Focus on scaling operations, expanding to new markets, building organizational structure, and maintaining culture. Execution speed is critical."
  | StartupStage.scale =>
    "The startup is at scale. Focus on operational excellence, market leadership, and preparing for potential exit/IPO. Governance, compliance, and professional management are priorities."

/-- `ROLE_CONTEXT`: founder-role context appended to the Chief of Staff. -/
def ROLE_CONTEXT : FounderRole → String
  | FounderRole.technical =>
    "The founder is technical — help them with the business/people/strategy side they may not naturally focus on. Translate business concepts into frameworks they understand."
  | FounderRole.business =>
    "The founder is business-focused — they handle relationships and strategy well. Help them make informed technical decisions and communicate effectively with engineering."
  | FounderRole.product =>
    "The founder is product-focused — they think deeply about users. Help them balance product vision with business pragmatism and operational needs."
  | FounderRole.generalist =>
    "The founder is a generalist — they wear many hats. Help them identify which hat to wear when, and when to delegate or hire specialists."

/-- `customizeForStage` (the guard on a missing record entry is vacuous here:
the record is total). -/
def customizeForStage (text : String) (stage : StartupStage) : String :=
  text ++ "\n\n## Startup Context\n" ++ STAGE_CONTEXT stage

/-- `customizeForFounderRole`. -/
def customizeForFounderRole (text : String) (role : FounderRole) : String :=
  text ++ "\n\n## Founder Context\n" ++ ROLE_CONTEXT role

/-- One iteration of the gap-selection loop of `generatePersonas`. -/
def gapStep (allTemplates : List PersonaTemplate) (res : List PersonaTemplate)
    (gap : String) : List PersonaTemplate :=
  match GAP_TO_PERSONA gap with
  | none => res
  | some personaId =>
    if personaId = "chief-of-staff" then res
    else
      match allTemplates.find? (fun t => t.id = personaId) with
      | none => res
      | some t => if res.any (fun x => x.id = t.id) then res else res ++ [t]

/-- The stage-specific enrichment applied to every selected template. -/
def stageEnrich (stage : StartupStage) (p : PersonaTemplate) : PersonaTemplate :=
  { p with identity := customizeForStage p.identity stage,
           system_prompt_prefix :=
             customizeForStage ( PersonaTemplate.system_prompt_prefix p) stage }

/-- The founder-role enrichment of the Chief of Staff: in the source the
`cosTemplate` object — the head of the result list — is mutated in place
after the stage enrichment, so the head's `identity` gains the founder
context. -/
def applyFounderContext (role : FounderRole) : List PersonaTemplate → List PersonaTemplate
  | [] => []
  | c :: rest => { c with identity := customizeForFounderRole c.identity role } :: rest

/-- `generatePersonas`: Chief of Staff first, then one template per selected
gap (deduplicated), all stage-enriched, and the Chief of Staff (the head of
the list) additionally enriched with founder-role context.  The `throw` on a
missing Chief of Staff template is modelled by `Except.error`. -/
def generatePersonasE (answers : OnboardingAnswers) : Except String (List PersonaTemplate) :=
  match getDefaultTemplates.find? (fun t => t.id = "chief-of-staff") with
  | none => Except.error "Chief of Staff template not found"
  | some cosTemplate =>
    let result := answers.gaps.foldl (gapStep getDefaultTemplates) [cosTemplate]
    let enriched := result.map (stageEnrich answers.startup_stage)
    Except.ok (applyFounderContext answers.founder_role enriched)

/-- `getSuggestedGaps`. -/
def getSuggestedGaps : StartupStage → List String
  | StartupStage.idea => ["product", "tech"]
  | StartupStage.preSeed => ["product", "tech", "growth"]
  | StartupStage.seed => ["growth", "finance", "product"]
  | StartupStage.seriesA => ["growth", "finance", "sales", "product"]
  | StartupStage.growth => ["growth", "finance", "sales", "legal"]
  | StartupStage.scale => ["finance", "legal", "sales", "growth"]

/-- Spec-side id sequence for `generatePersonas`, following the claim's words:
`chief-of-staff` first, then each gap mapped through the fixed table in
order, skipping identifiers absent from the table and ids already present. -/
def gapIdsSpec (gaps : List String) : List String :=
  gaps.foldl
    (fun acc gap =>
      match GAP_TO_PERSONA gap with
      | none => acc
      | some pid => if acc.contains pid then acc else acc ++ [pid])
    ["chief-of-staff"]

-- ---------------------------------------------------------------------------
-- Store model (the injected MemoryManager; not part of the sources)
-- ---------------------------------------------------------------------------

/-- `PersonaUpdateInput`: a partial update.  The primary-key `id` is treated
as immutable by the store (it is the row selector), so it is not among the
updatable fields. -/
structure PersonaUpdateInput where
  name : Option String := none
  slug : Option String := none
  icon : Option String := none
  color : Option String := none
  role_title : Option String := none
  description : Option String := none
  identity : Option String := none
  instructions : Option String := none
  system_prompt_prefix : Option String := none
  is_default : Option Bool := none
  is_active : Option Bool := none
  sort_order : Option Int := none
deriving DecidableEq

/-- Modelled from the spec: applying a partial update to a persona row
(every supplied field overwrites, every omitted field is kept). -/
def applyUpdate (p : Persona) (u : PersonaUpdateInput) : Persona :=
  { id := p.id
    name := u.name.getD p.name
    slug := u.slug.getD p.slug
    icon := u.icon.getD p.icon
    color := u.color.getD p.color
    role_title := u.role_title.getD p.role_title
    description := u.description.getD p.description
    identity := u.identity.getD p.identity
    instructions := u.instructions.getD p.instructions
    system_prompt_prefix :=
      ( PersonaUpdateInput.system_prompt_prefix u).getD ( Persona.system_prompt_prefix p)
    is_default := u.is_default.getD p.is_default
    is_active := u.is_active.getD p.is_active
    sort_order := u.sort_order.getD p.sort_order }

namespace Store

/-- Modelled from the spec: `getPersonaById` — the row with the given id. -/
def getPersonaById (db : List Persona) (id : String) : Option Persona :=
  db.find? (fun p => p.id = id)

/-- Modelled from the spec: `updatePersona(id, partial) -> bool` — applies the
partial to the row with the given id, returning whether a row was found. -/
def updatePersona (db : List Persona) (id : String) (u : PersonaUpdateInput) :
    Bool × List Persona :=
  if db.any (fun p => p.id = id) then
    (true, db.map (fun p => if p.id = id then applyUpdate p u else p))
  else (false, db)

/-- Modelled from the spec: `savePersona` — insert or replace by id. -/
def savePersona (db : List Persona) (p : Persona) : List Persona :=
  if db.any (fun q => q.id = p.id) then
    db.map (fun q => if q.id = p.id then p else q)
  else db ++ [p]

/-- Modelled from the spec: `setRoutingKeywords(personaId, pairs)` — replaces
the persona's keyword set. -/
def setRoutingKeywords (kws : List RoutingKeyword) (pid : String)
    (pairs : List (String × ℚ)) : List RoutingKeyword :=
  kws.filter (fun k => k.persona_id ≠ pid) ++
    pairs.map (fun e => { id := 0, persona_id := pid, keyword := e.1, weight := e.2 })

end Store

-- ---------------------------------------------------------------------------
-- PersonaManager (src/personas/index.ts)
-- ---------------------------------------------------------------------------

/-- The state of an initialized `PersonaManagerClass`: the store contents
(persona rows and routing keywords) plus the in-memory read cache
(`null`/`none` = cold). -/
structure ManagerState where
  db : List Persona
  kws : List RoutingKeyword
  cache : Option (List Persona)
deriving DecidableEq

/-- A write issued against the store (used to state that seeding is a no-op:
no store write is issued). -/
inductive StoreWrite where
  | savePersona (p : Persona)
  | setRoutingKeywords (persona_id : String) (pairs : List (String × ℚ))
deriving DecidableEq

namespace Manager

/-- `getAll(activeOnly)`: fill the cache from the store when cold (the spec:
the full unfiltered set), then optionally filter to active personas.
Returns the list and the (possibly cache-warmed) state. -/
def getAll (s : ManagerState) (activeOnly : Bool) : List Persona × ManagerState :=
  let c := match s.cache with
    | some c => c
    | none => s.db
  ((if activeOnly then c.filter (fun p => p.is_active) else c), { s with cache := some c })

/-- `getById(id)`: cache lookup first, store on miss. -/
def getById (s : ManagerState) (id : String) : Option Persona :=
  match s.cache.bind (fun c => c.find? (fun p => p.id = id)) with
  | some p => some p
  | none => Store.getPersonaById s.db id

/-- `hasPersonas()`: `getAll(false).length > 0`. -/
def hasPersonas (s : ManagerState) : Bool × ManagerState :=
  let r := getAll s false
  (decide (0 < r.1.length), r.2)

/-- `update(id, partial)`: delegate to the store, invalidating the cache only
on a successful mutation. -/
def update (s : ManagerState) (id : String) (u : PersonaUpdateInput) :
    Bool × ManagerState :=
  let r := Store.updatePersona s.db id u
  if r.1 then (true, { s with db := r.2, cache := none })
  else (false, { s with db := r.2 })

/-- The persona row built from a template during seeding
(`is_active` is forced to `true`). -/
def personaOfTemplate (t : PersonaTemplate) : Persona :=
  { id := t.id, name := t.name, slug := t.slug, icon := t.icon,
    color := t.color, role_title := t.role_title, description := t.description,
    identity := t.identity, instructions := t.instructions,
    system_prompt_prefix := PersonaTemplate.system_prompt_prefix t,
    is_default := t.is_default, is_active := true, sort_order := t.sort_order }

/-- One iteration of the seeding loop: save the persona, then set its routing
keywords (each at weight `1.0`) when the template has any. -/
def seedStep (acc : ManagerState × List StoreWrite) (t : PersonaTemplate) :
    ManagerState × List StoreWrite :=
  let p := personaOfTemplate t
  let afterSave : ManagerState × List StoreWrite :=
    ({ acc.1 with db := Store.savePersona acc.1.db p },
     acc.2 ++ [StoreWrite.savePersona p])
  if 0 < t.keywords.length then
    ({ afterSave.1 with
        kws := Store.setRoutingKeywords afterSave.1.kws t.id
                 (t.keywords.map (fun k => (k, (1 : ℚ)))) },
     afterSave.2 ++ [StoreWrite.setRoutingKeywords t.id
                 (t.keywords.map (fun k => (k, (1 : ℚ))))])
  else afterSave

/-- `seedDefaults(answers?)`: a no-op when personas already exist; otherwise
persists every selected template and invalidates the cache.  Returns the new
state together with the list of store writes issued. -/
def seedDefaults (s : ManagerState) (answers : Option OnboardingAnswers) :
    Except String (ManagerState × List StoreWrite) :=
  let h := hasPersonas s
  if h.1 then Except.ok (h.2, [])
  else
    match (match answers with
           | some a => generatePersonasE a
           | none => Except.ok getDefaultTemplates) with
    | Except.error e => Except.error e
    | Except.ok templates =>
      let final := templates.foldl seedStep (h.2, [])
      Except.ok ({ final.1 with cache := none }, final.2)

end Manager

-- ---------------------------------------------------------------------------
-- Concrete fixtures for witnesses and counterexamples
-- ---------------------------------------------------------------------------

/-- A minimal persona record with everything defaulted; only the routing-
relevant fields vary across fixtures. -/
def basePersona : Persona :=
  { id := "", name := "", slug := "", icon := "", color := "", role_title := "",
    description := "", identity := "", instructions := "",
    system_prompt_prefix := "", is_default := false, is_active := true,
    sort_order := 0 }

/-- Active persona `a`. -/
def personaA : Persona := { basePersona with id := "a", name := "A", slug := "a" }

/-- Active persona `b`. -/
def personaB : Persona := { basePersona with id := "b", name := "B", slug := "b" }

/-- Inactive persona `bob`. -/
def personaBob : Persona :=
  { basePersona with id := "bob", name := "Bob", slug := "bob", is_active := false }

/-- Active default persona `d`. -/
def personaD : Persona :=
  { basePersona with id := "d", name := "D", slug := "d", is_default := true }

/-- Active persona addressable as `@growth`. -/
def personaGrowth : Persona :=
  { basePersona with id := "growth-advisor", name := "Growth", slug := "growth" }

/-- Configuration used to probe the dominance boundary: persona `a` scores
`wa` on the token `alpha`, persona `b` scores `1` on `beta`. -/
def cfgDom (wa : ℚ) : RouterConfig :=
  { getPersonas := [personaA, personaB],
    getBySlug := fun _ => none,
    getDefault := none,
    getAllKeywords :=
      [{ id := 1, persona_id := "a", keyword := "alpha", weight := wa },
       { id := 2, persona_id := "b", keyword := "beta", weight := 1 }] }

/-- Configuration whose only keyword belongs to the inactive persona `bob`. -/
def cfgInactive : RouterConfig :=
  { getPersonas := [personaBob],
    getBySlug := fun _ => none,
    getDefault := none,
    getAllKeywords :=
      [{ id := 1, persona_id := "bob", keyword := "finance", weight := 1 }] }

/-- Configuration resolving the slug `growth` to an active persona. -/
def cfgMention : RouterConfig :=
  { getPersonas := [personaGrowth],
    getBySlug := fun s => if s = "growth" then some personaGrowth else none,
    getDefault := none,
    getAllKeywords := [] }

/-- Configuration with an intent keyword for `a` and a default persona `d`. -/
def cfgIntentD : RouterConfig :=
  { getPersonas := [personaA, personaD],
    getBySlug := fun _ => none,
    getDefault := some personaD,
    getAllKeywords :=
      [{ id := 1, persona_id := "a", keyword := "alpha", weight := 1 }] }

/-- The empty initialized manager state. -/
def initialState : ManagerState := { db := [], kws := [], cache := none }

/-- The manager state immediately after a first `seedDefaults()` from the
empty state (it seeds the full catalog). -/
def seededState : ManagerState :=
  match Manager.seedDefaults initialState none with
  | Except.ok r => r.1
  | Except.error _ => initialState

/-- A concrete persona row for the cache-correctness witness. -/
def personaW7 : Persona :=
  { basePersona with id := "w7", name := "Old Name", slug := "w7" }

/-- Manager state holding `personaW7` with a warm cache. -/
def stateW7 : ManagerState :=
  { db := [personaW7], kws := [], cache := some [personaW7] }

/-- The partial update used by the cache-correctness witness. -/
def updW7 : PersonaUpdateInput := { name := some "New Name" }

-- ---------------------------------------------------------------------------
-- Lemmas about generateId
-- ---------------------------------------------------------------------------

theorem isLowerAlnum_ne_hyphen {c : Char} (h : isLowerAlnum c = true) : c ≠ '-' := by
  intro hc
  subst hc
  exact absurd h (by decide)

theorem collapseAux_true_head (cs : List Char) :
    (collapseAux true cs).head? ≠ some '-' := by
  induction cs with
  | nil => simp [collapseAux]
  | cons c cs ih =>
    by_cases h : isLowerAlnum c = true
    · simp only [collapseAux, h, if_true, List.head?]
      intro hc
      exact isLowerAlnum_ne_hyphen h (by injection hc)
    · simpa [collapseAux, h] using ih

theorem collapseAux_noAdj (cs : List Char) :
    ∀ b, hasAdjacentHyphens (collapseAux b cs) = false := by
  induction cs with
  | nil => intro b; simp [collapseAux, hasAdjacentHyphens]
  | cons c cs ih =>
    intro b
    by_cases h : isLowerAlnum c = true
    · have hc : c ≠ '-' := isLowerAlnum_ne_hyphen h
      cases ht : collapseAux false cs with
      | nil => simp [collapseAux, h, ht, hasAdjacentHyphens]
      | cons d t =>
        have := ih false
        rw [ht] at this
        simp [collapseAux, h, ht, hasAdjacentHyphens, hc, this]
    · cases b with
      | true => simpa [collapseAux, h] using ih true
      | false =>
        cases ht : collapseAux true cs with
        | nil => simp [collapseAux, h, ht, hasAdjacentHyphens]
        | cons d t =>
          have hd : d ≠ '-' := by
            have := collapseAux_true_head cs
            rw [ht] at this
            simp only [List.head?] at this
            intro hdc
            exact this (by rw [hdc])
          have := ih true
          rw [ht] at this
          simp [collapseAux, h, ht, hasAdjacentHyphens, hd, this]

theorem dropOneLeading_noAdj {l : List Char} (h : hasAdjacentHyphens l = false) :
    hasAdjacentHyphens (dropOneLeading l) = false := by
  cases l with
  | nil => simpa [dropOneLeading] using h
  | cons c rest =>
    by_cases hc : c = '-'
    · subst hc
      simp only [dropOneLeading, if_pos rfl]
      cases rest with
      | nil => simp [hasAdjacentHyphens]
      | cons d t =>
        simp only [hasAdjacentHyphens, Bool.or_eq_false_iff] at h
        exact h.2
    · simpa [dropOneLeading, hc] using h

theorem dropOneTrailing_noAdj {l : List Char} (h : hasAdjacentHyphens l = false) :
    hasAdjacentHyphens (dropOneTrailing l) = false := by
  induction l with
  | nil => simpa [dropOneTrailing] using h
  | cons a rest ih =>
    cases rest with
    | nil =>
      by_cases ha : a = '-' <;> simp [dropOneTrailing, ha, hasAdjacentHyphens]
    | cons b t =>
      simp only [hasAdjacentHyphens, Bool.or_eq_false_iff] at h
      cases t with
      | nil =>
        by_cases hb : b = '-' <;>
          simp [dropOneTrailing, hb, hasAdjacentHyphens, h.1]
      | cons c t' =>
        have htail := ih h.2
        simp only [dropOneTrailing] at htail ⊢
        simp [hasAdjacentHyphens, h.1, htail]

theorem dropOneLeading_eq_dropWhile {l : List Char} (h : hasAdjacentHyphens l = false) :
    dropOneLeading l = l.dropWhile (fun c => c = '-') := by
  cases l with
  | nil => simp [dropOneLeading]
  | cons c rest =>
    by_cases hc : c = '-'
    · subst hc
      cases rest with
      | nil => simp [dropOneLeading, List.dropWhile_cons]
      | cons d t =>
        have hd : d ≠ '-' := by
          intro hdc
          subst hdc
          simp [hasAdjacentHyphens] at h
        simp [dropOneLeading, List.dropWhile_cons, hd]
    · simp [dropOneLeading, List.dropWhile_cons, hc]

theorem dropOneTrailing_eq_nil {m : List Char} (h : dropOneTrailing m = []) :
    m = [] ∨ m = ['-'] := by
  cases m with
  | nil => exact Or.inl rfl
  | cons a rest =>
    cases rest with
    | nil =>
      by_cases ha : a = '-'
      · exact Or.inr (by rw [ha])
      · simp [dropOneTrailing, ha] at h
    | cons b t => simp [dropOneTrailing] at h

theorem dropOneTrailing_eq_dropTrailingAll {l : List Char}
    (h : hasAdjacentHyphens l = false) : dropOneTrailing l = dropTrailingAll l := by
  induction l with
  | nil => rfl
  | cons a rest ih =>
    cases rest with
    | nil =>
      by_cases ha : a = '-' <;> simp [dropOneTrailing, dropTrailingAll, ha]
    | cons b t =>
      simp only [hasAdjacentHyphens, Bool.or_eq_false_iff] at h
      have htail := ih h.2
      cases hr : dropTrailingAll (b :: t) with
      | nil =>
        have hbt : b :: t = ['-'] := by
          rcases dropOneTrailing_eq_nil (htail.trans hr) with h1 | h1
          · exact absurd h1 (by simp)
          · exact h1
        have hb : b = '-' := by injection hbt
        have ht : t = [] := by injection hbt with _ h2
        have ha : a ≠ '-' := by
          intro hac
          have := h.1
          rw [hac, hb] at this
          simp at this
        subst hb ht
        simp [dropOneTrailing, dropTrailingAll, ha]
      | cons x xs =>
        have h2 : dropTrailingAll (a :: b :: t) = a :: (x :: xs) := by
          rw [dropTrailingAll, hr]
        simp only [dropOneTrailing]
        rw [htail, hr, h2]

theorem generateId_noAdj (name : String) :
    hasAdjacentHyphens (generateId name).data = false := by
  unfold generateId
  exact dropOneTrailing_noAdj (dropOneLeading_noAdj (collapseAux_noAdj _ false))

theorem generateId_eq_specModel (name : String) :
    generateId name = generateIdSpecModel name := by
  unfold generateId generateIdSpecModel
  rw [← dropOneLeading_eq_dropWhile (collapseAux_noAdj _ false),
    dropOneTrailing_eq_dropTrailingAll (dropOneLeading_noAdj (collapseAux_noAdj _ false))]

/-- C9: the id derived by `create` when no id is supplied (via `generateId`)
equals the name lower-cased with every maximal run of non-alphanumeric
characters replaced by a single hyphen and leading/trailing hyphens removed,
with no doubled hyphens in the result; in particular
`generateId "Chief of Staff" = "chief-of-staff"` and
`generateId "R&D!! Lead" = "r-d-lead"`. -/
theorem c9_generateId_slug :
    generateId "Chief of Staff" = "chief-of-staff" ∧
    generateId "R&D!! Lead" = "r-d-lead" ∧
    (∀ name, generateId name = generateIdSpecModel name) ∧
    (∀ name, hasAdjacentHyphens (generateId name).data = false) :=
  ⟨by decide, by decide, generateId_eq_specModel, generateId_noAdj⟩

-- ---------------------------------------------------------------------------
-- Lemmas about Stage 1 (mention detection)
-- ---------------------------------------------------------------------------

theorem takeWhile_append_all {p : Char → Bool} (l₁ l₂ : List Char)
    (h : ∀ c ∈ l₁, p c = true) :
    (l₁ ++ l₂).takeWhile p = l₁ ++ l₂.takeWhile p := by
  induction l₁ with
  | nil => simp
  | cons c cs ih =>
    have hc := h c (by simp)
    simp [List.takeWhile_cons, hc, ih (fun x hx => h x (by simp [hx]))]

theorem dropWhile_append_all {p : Char → Bool} (l₁ l₂ : List Char)
    (h : ∀ c ∈ l₁, p c = true) :
    (l₁ ++ l₂).dropWhile p = l₂.dropWhile p := by
  induction l₁ with
  | nil => simp
  | cons c cs ih =>
    have hc := h c (by simp)
    simp [List.dropWhile_cons, hc, ih (fun x hx => h x (by simp [hx]))]

theorem tryMentionHere_at_start (slug rest : List Char) (hne : slug ≠ [])
    (hw : ∀ c ∈ slug, isWordChar c = true) :
    tryMentionHere true ('@' :: (slug ++ ' ' :: rest)) = some (slug, ' ' :: rest) := by
  have hsp : isWordChar ' ' = false := by decide
  have ht : (slug ++ ' ' :: rest).takeWhile isWordChar = slug := by
    rw [takeWhile_append_all _ _ hw]
    simp [List.takeWhile_cons, hsp]
  have hd : (slug ++ ' ' :: rest).dropWhile isWordChar = ' ' :: rest := by
    rw [dropWhile_append_all _ _ hw]
    simp [List.dropWhile_cons, hsp]
  simp [tryMentionHere, ht, hd, hne]

theorem findMentionAux_found {isStart : Bool} {beforeRev cs tok post : List Char}
    (h : tryMentionHere isStart cs = some (tok, post)) :
    findMentionAux isStart beforeRev cs = some (beforeRev.reverse, tok, post) := by
  cases cs with
  | nil => simp [findMentionAux, h]
  | cons c rest => simp [findMentionAux, h, Option.orElse]

theorem detectMention_spec {cfg : RouterConfig} {msg : String} {r : PersonaRouteResult}
    (h : detectMention cfg msg = some r) :
    r.method = RouteMethod.mention ∧ r.persona.is_active = true ∧ r.confidence = 1 := by
  unfold detectMention at h
  split at h
  · exact absurd h (by simp)
  · dsimp only at h
    split at h
    · exact absurd h (by simp)
    · split at h
      · rename_i hact
        injection h with h'
        subst h'
        exact ⟨rfl, hact, rfl⟩
      · exact absurd h (by simp)

theorem route_of_detectMention {cfg : RouterConfig} {msg : String} {r : PersonaRouteResult}
    (h : detectMention cfg msg = some r) : route cfg msg = Except.ok r := by
  unfold route
  rw [h]

theorem classifyIntent_spec {cfg : RouterConfig} {msg : String} {r : PersonaRouteResult}
    (h : classifyIntent cfg msg = some r) :
    r.method = RouteMethod.intent ∧ r.strippedMessage = none ∧
    ∃ topId topScore restSorted,
      sortDesc (scoresFor cfg msg) = (topId, topScore) :: restSorted ∧
      cfg.getPersonas.find? (fun p => p.id = topId) = some r.persona ∧
      r.persona.id = topId ∧
      r.confidence = jsMin (topScore / (Nat.max (tokenizeWords msg).length 1 : ℚ)) 1 ∧
      MIN_THRESHOLD ≤ topScore / (Nat.max (tokenizeWords msg).length 1 : ℚ) ∧
      isDefaultId cfg.getDefault topId = false := by
  unfold classifyIntent at h
  split at h
  · exact absurd h (by simp)
  · dsimp only at h
    split at h
    · exact absurd h (by simp)
    · split at h
      · exact absurd h (by simp)
      · split at h
        · exact absurd h (by simp)
        · rename_i topId topScore restSorted hsort
          split at h
          · exact absurd h (by simp)
          · rename_i hth
            split at h
            · exact absurd h (by simp)
            · split at h
              · exact absurd h (by simp)
              · rename_i hdg
                split at h
                · exact absurd h (by simp)
                · rename_i persona hfindp
                  have hpid : persona.id = topId := by
                    have hp := List.find?_some hfindp
                    simpa using hp
                  injection h with h'
                  subst h'
                  exact ⟨rfl, rfl, topId, topScore, restSorted, hsort, hfindp,
                    hpid, rfl, not_lt.mp hth, Bool.eq_false_iff.mpr hdg⟩

theorem route_ok_intent {cfg : RouterConfig} {msg : String} {r : PersonaRouteResult}
    (h : route cfg msg = Except.ok r) (hm : r.method = RouteMethod.intent) :
    classifyIntent cfg msg = some r := by
  unfold route at h
  cases hd : detectMention cfg msg with
  | some r0 =>
    rw [hd] at h
    injection h with h'
    subst h'
    rw [(detectMention_spec hd).1] at hm
    exact absurd hm (by decide)
  | none =>
    rw [hd] at h
    cases hi : classifyIntent cfg msg with
    | some r1 =>
      rw [hi] at h
      injection h with h'
      subst h'
      rfl
    | none =>
      rw [hi] at h
      cases hg : cfg.getDefault with
      | some dp =>
        rw [hg] at h
        injection h with h'
        subst h'
        simp at hm
      | none =>
        rw [hg] at h
        exact absurd h (by simp)

/-- C1: for every message of the form `"@<slug> <rest>"` whose slug (a
nonempty run of word characters) resolves case-insensitively to an active
persona via `getBySlug`, `route` returns method `mention` with confidence
`1.0` and `strippedMessage = rest.trim()` — or the original message when
stripping leaves the empty string. -/
theorem c1_mention_route (cfg : RouterConfig) (slug rest : String) (p : Persona)
    (h1 : slug.data ≠ [])
    (h2 : ∀ c ∈ slug.data, isWordChar c = true)
    (h3 : cfg.getBySlug (lowerStr slug) = some p)
    (h4 : p.is_active = true) :
    route cfg ("@" ++ slug ++ " " ++ rest) =
      Except.ok { persona := p, method := RouteMethod.mention, confidence := 1,
                  strippedMessage := some (if jsTrim rest = ""
                    then "@" ++ slug ++ " " ++ rest else jsTrim rest) } := by
  have hdata : ("@" ++ slug ++ " " ++ rest).data = '@' :: (slug.data ++ ' ' :: rest.data) := by
    simp [String.data_append]
  have hfind : findMentionAux true [] ("@" ++ slug ++ " " ++ rest).data
      = some (([] : List Char).reverse, slug.data, ' ' :: rest.data) := by
    rw [hdata]
    exact findMentionAux_found (tryMentionHere_at_start slug.data rest.data h1 h2)
  have heta : String.mk slug.data = slug := rfl
  have htrim : jsTrim (String.mk (([] : List Char).reverse ++ ' ' :: rest.data)) = jsTrim rest := by
    have hws : Char.isWhitespace ' ' = true := by decide
    simp [jsTrim, List.dropWhile_cons, hws]
  apply route_of_detectMention
  unfold detectMention
  rw [hfind]
  dsimp only
  rw [heta, h3]
  simp only [h4, if_true, htrim]

/-- Closed instantiation of `c1_mention_route`: its hypotheses hold at the
fixture configuration and the conclusion follows by applying the theorem. -/
theorem c1_mention_route_witness :
    (("growth" : String).data ≠ [] ∧
      (∀ c ∈ ("growth" : String).data, isWordChar c = true) ∧
      cfgMention.getBySlug (lowerStr "growth") = some personaGrowth ∧
      personaGrowth.is_active = true) ∧
    route cfgMention ("@" ++ "growth" ++ " " ++ "launch plan") =
      Except.ok { persona := personaGrowth, method := RouteMethod.mention, confidence := 1,
                  strippedMessage := some (if jsTrim "launch plan" = ""
                    then "@" ++ "growth" ++ " " ++ "launch plan"
                    else jsTrim "launch plan") } :=
  ⟨⟨by decide, by decide, by decide, by decide⟩,
   c1_mention_route cfgMention "growth" "launch plan" personaGrowth
     (by decide) (by decide) (by decide) (by decide)⟩


theorem route_of_classifyIntent {cfg : RouterConfig} {msg : String} {r : PersonaRouteResult}
    (hd : detectMention cfg msg = none) (hci : classifyIntent cfg msg = some r) :
    route cfg msg = Except.ok r := by
  unfold route
  rw [hd, hci]

theorem classifyIntent_eval_single (cfg : RouterConfig) (msg : String)
    (topId : String) (topScore tokC conf : ℚ) (persona : Persona)
    (hkm : (buildKeywordMap cfg.getAllKeywords).isEmpty = false)
    (hwords : (tokenizeWords msg).isEmpty = false)
    (hscne : (scoresFor cfg msg).isEmpty = false)
    (hsort : sortDesc (scoresFor cfg msg) = [(topId, topScore)])
    (hlen : ((Nat.max (tokenizeWords msg).length 1 : ℕ) : ℚ) = tokC)
    (hth : ¬(topScore / tokC < MIN_THRESHOLD))
    (hdef : isDefaultId cfg.getDefault topId = false)
    (hfind : cfg.getPersonas.find? (fun p => p.id = topId) = some persona)
    (hconf : jsMin (topScore / tokC) 1 = conf) :
    classifyIntent cfg msg =
      some { persona := persona, method := RouteMethod.intent,
             confidence := conf, strippedMessage := none } := by
  unfold classifyIntent
  rw [hkm]
  simp only [Bool.false_eq_true, if_false]
  rw [hwords]
  simp only [Bool.false_eq_true, if_false]
  rw [hscne]
  simp only [Bool.false_eq_true, if_false]
  rw [hsort, hlen]
  simp only [if_neg hth]
  rw [if_neg (by simp), hdef]
  simp only [Bool.false_eq_true, if_false]
  rw [hfind, hconf]

theorem classifyIntent_eval_pair (cfg : RouterConfig) (msg : String)
    (topId sid : String) (topScore s2 tokC conf : ℚ) (tail2 : List (String × ℚ))
    (persona : Persona)
    (hkm : (buildKeywordMap cfg.getAllKeywords).isEmpty = false)
    (hwords : (tokenizeWords msg).isEmpty = false)
    (hscne : (scoresFor cfg msg).isEmpty = false)
    (hsort : sortDesc (scoresFor cfg msg) = (topId, topScore) :: (sid, s2) :: tail2)
    (hlen : ((Nat.max (tokenizeWords msg).length 1 : ℕ) : ℚ) = tokC)
    (hth : ¬(topScore / tokC < MIN_THRESHOLD))
    (hdom : ¬(0 < s2 ∧ topScore < s2 * DOMINANCE_FACTOR))
    (hdef : isDefaultId cfg.getDefault topId = false)
    (hfind : cfg.getPersonas.find? (fun p => p.id = topId) = some persona)
    (hconf : jsMin (topScore / tokC) 1 = conf) :
    classifyIntent cfg msg =
      some { persona := persona, method := RouteMethod.intent,
             confidence := conf, strippedMessage := none } := by
  unfold classifyIntent
  rw [hkm]
  simp only [Bool.false_eq_true, if_false]
  rw [hwords]
  simp only [Bool.false_eq_true, if_false]
  rw [hscne]
  simp only [Bool.false_eq_true, if_false]
  rw [hsort, hlen]
  simp only [if_neg hth]
  rw [if_neg (by simpa using hdom), hdef]
  simp only [Bool.false_eq_true, if_false]
  rw [hfind, hconf]

theorem classifyIntent_eval_dominance_none (cfg : RouterConfig) (msg : String)
    (topId sid : String) (topScore s2 : ℚ) (tail2 : List (String × ℚ))
    (hsort : sortDesc (scoresFor cfg msg) = (topId, topScore) :: (sid, s2) :: tail2)
    (hdom : 0 < s2 ∧ topScore < s2 * DOMINANCE_FACTOR) :
    classifyIntent cfg msg = none := by
  unfold classifyIntent
  by_cases hkm : (buildKeywordMap cfg.getAllKeywords).isEmpty
  · rw [hkm]
    simp
  · rw [Bool.eq_false_iff.mpr hkm]
    simp only [Bool.false_eq_true, if_false]
    by_cases hwords : (tokenizeWords msg).isEmpty
    · rw [hwords]
      simp
    · rw [Bool.eq_false_iff.mpr hwords]
      simp only [Bool.false_eq_true, if_false]
      by_cases hscne : (scoresFor cfg msg).isEmpty
      · rw [hscne]
        simp
      · rw [Bool.eq_false_iff.mpr hscne]
        simp only [Bool.false_eq_true, if_false]
        rw [hsort]
        by_cases hth : topScore / (Nat.max (tokenizeWords msg).length 1 : ℚ) < MIN_THRESHOLD
        · simp only [if_pos hth]
        · simp only [if_neg hth, if_pos (show (0 < s2 ∧ topScore < s2 * DOMINANCE_FACTOR) by exact hdom)]

/-- Counterexample to C2 as stated: a configuration whose only routing
keyword belongs to the inactive persona `bob`.  Stage 2 resolves the winner
from `getPersonas` without checking `is_active`, so `route` returns the
inactive persona with method `intent`. -/
theorem c2_counterexample_inactive_intent :
    route cfgInactive "finance report please" =
      Except.ok { persona := personaBob, method := RouteMethod.intent,
                  confidence := 1 / 3, strippedMessage := none } ∧
    personaBob.is_active = false := by
  have hsc : scoresFor cfgInactive "finance report please" = [("bob", 1)] := by
    show [("bob", (0 : ℚ) + 1)] = [("bob", 1)]
    norm_num
  have hlen3 : ((Nat.max (tokenizeWords "finance report please").length 1 : ℕ) : ℚ) = 3 := by
    rw [show tokenizeWords "finance report please" = ["finance", "report", "please"] from rfl]
    norm_num
  refine ⟨route_of_classifyIntent (by rfl) ?_, by rfl⟩
  refine classifyIntent_eval_single cfgInactive "finance report please" "bob" 1 3 (1 / 3)
    personaBob rfl rfl rfl (by rw [hsc]; rfl) hlen3 ?_ rfl rfl ?_
  · rw [MIN_THRESHOLD]
    norm_num
  · rw [jsMin]
    norm_num

/-- C2 (amended): only Stage 1 excludes inactive personas — whenever `route`
returns method `mention`, the returned persona is active.  Stages 2 and 3
perform no `is_active` check and return whatever persona the configuration's
accessors supply, as `c2_counterexample_inactive_intent` shows. -/
theorem c2_mention_stage_active (cfg : RouterConfig) (msg : String)
    (r : PersonaRouteResult) (h : route cfg msg = Except.ok r)
    (hm : r.method = RouteMethod.mention) : r.persona.is_active = true := by
  unfold route at h
  cases hd : detectMention cfg msg with
  | some r0 =>
    rw [hd] at h
    injection h with h'
    subst h'
    exact (detectMention_spec hd).2.1
  | none =>
    rw [hd] at h
    cases hi : classifyIntent cfg msg with
    | some r1 =>
      rw [hi] at h
      injection h with h'
      subst h'
      rw [(classifyIntent_spec hi).1] at hm
      exact absurd hm (by decide)
    | none =>
      rw [hi] at h
      cases hg : cfg.getDefault with
      | some dp =>
        rw [hg] at h
        injection h with h'
        subst h'
        simp at hm
      | none =>
        rw [hg] at h
        exact absurd h (by simp)

/-- Closed instantiation of `c2_mention_stage_active` at the fixture mention
routing. -/
theorem c2_mention_stage_active_witness :
    (route cfgMention "@growth hello" =
      Except.ok { persona := personaGrowth, method := RouteMethod.mention, confidence := 1,
                  strippedMessage := some "hello" } ∧
      RouteMethod.mention = RouteMethod.mention) ∧
    personaGrowth.is_active = true :=
  ⟨⟨by rfl, rfl⟩,
   c2_mention_stage_active cfgMention "@growth hello"
     { persona := personaGrowth, method := RouteMethod.mention, confidence := 1,
       strippedMessage := some "hello" } (by rfl) rfl⟩

/-- Counterexample to C3 as stated: with keyword scores standing in ratio
exactly `1.5` (persona `a` scores `3/2`, persona `b` scores `1`), Stage 2
produces an intent match — the dominance gate `top < second * 1.5` does not
reject equality, so the boundary is inclusive, not exclusive. -/
theorem c3_counterexample_ratio_exactly_threshold :
    mapGet "a" (scoresFor (cfgDom (3 / 2)) "alpha beta") = some (3 / 2) ∧
    mapGet "b" (scoresFor (cfgDom (3 / 2)) "alpha beta") = some 1 ∧
    route (cfgDom (3 / 2)) "alpha beta" =
      Except.ok { persona := personaA, method := RouteMethod.intent,
                  confidence := 3 / 4, strippedMessage := none } := by
  have hsc : scoresFor (cfgDom (3 / 2)) "alpha beta" = [("a", 3 / 2), ("b", 1)] := by
    show [("a", (0 : ℚ) + 3 / 2), ("b", (0 : ℚ) + 1)] = [("a", 3 / 2), ("b", 1)]
    norm_num
  have hlen2 : ((Nat.max (tokenizeWords "alpha beta").length 1 : ℕ) : ℚ) = 2 := by
    rw [show tokenizeWords "alpha beta" = ["alpha", "beta"] from rfl]
    norm_num
  refine ⟨by rw [hsc]; rfl, by rw [hsc]; rfl, route_of_classifyIntent (by rfl) ?_⟩
  refine classifyIntent_eval_pair (cfgDom (3 / 2)) "alpha beta" "a" "b" (3 / 2) 1 2 (3 / 4)
    [] personaA rfl rfl rfl (by rw [hsc]; norm_num [sortDesc, insertDesc]) hlen2 ?_ ?_ rfl rfl ?_
  · rw [MIN_THRESHOLD]
    norm_num
  · rw [DOMINANCE_FACTOR]
    norm_num
  · rw [jsMin]
    norm_num

/-- C3 (amended): the dominance boundary is inclusive.  With two personas
scoring in ratio exactly `1.5` Stage 2 yields an intent match; ratio `1.51`
also yields a match; a ratio strictly below `1.5` (here `1.4`) yields no
intent match and the message falls through to the default stage. -/
theorem c3_dominance_boundary_inclusive :
    (mapGet "a" (scoresFor (cfgDom (151 / 100)) "alpha beta") = some (151 / 100) ∧
     mapGet "b" (scoresFor (cfgDom (151 / 100)) "alpha beta") = some 1 ∧
     route (cfgDom (151 / 100)) "alpha beta" =
       Except.ok { persona := personaA, method := RouteMethod.intent,
                   confidence := 151 / 200, strippedMessage := none }) ∧
    (mapGet "a" (scoresFor (cfgDom (3 / 2)) "alpha beta") = some (3 / 2) ∧
     route (cfgDom (3 / 2)) "alpha beta" =
       Except.ok { persona := personaA, method := RouteMethod.intent,
                   confidence := 3 / 4, strippedMessage := none }) ∧
    (mapGet "a" (scoresFor (cfgDom (7 / 5)) "alpha beta") = some (7 / 5) ∧
     mapGet "b" (scoresFor (cfgDom (7 / 5)) "alpha beta") = some 1 ∧
     classifyIntent (cfgDom (7 / 5)) "alpha beta" = none ∧
     route (cfgDom (7 / 5)) "alpha beta" = Except.error "No default persona configured") := by
  have hlen2 : ((Nat.max (tokenizeWords "alpha beta").length 1 : ℕ) : ℚ) = 2 := by
    rw [show tokenizeWords "alpha beta" = ["alpha", "beta"] from rfl]
    norm_num
  refine ⟨⟨?_, ?_, ?_⟩, ⟨?_, ?_⟩, ?_, ?_, ?_, ?_⟩
  · rw [show mapGet "a" (scoresFor (cfgDom (151 / 100)) "alpha beta")
        = some ((0 : ℚ) + 151 / 100) from rfl]
    norm_num
  · rw [show mapGet "b" (scoresFor (cfgDom (151 / 100)) "alpha beta")
        = some ((0 : ℚ) + 1) from rfl]
    norm_num
  · have hsc : scoresFor (cfgDom (151 / 100)) "alpha beta" = [("a", 151 / 100), ("b", 1)] := by
      show [("a", (0 : ℚ) + 151 / 100), ("b", (0 : ℚ) + 1)] = [("a", 151 / 100), ("b", 1)]
      norm_num
    refine route_of_classifyIntent (by rfl) ?_
    refine classifyIntent_eval_pair (cfgDom (151 / 100)) "alpha beta" "a" "b" (151 / 100) 1 2
      (151 / 200) [] personaA rfl rfl rfl
      (by rw [hsc]; norm_num [sortDesc, insertDesc]) hlen2 ?_ ?_ rfl rfl ?_
    · rw [MIN_THRESHOLD]
      norm_num
    · rw [DOMINANCE_FACTOR]
      norm_num
    · rw [jsMin]
      norm_num
  · rw [show mapGet "a" (scoresFor (cfgDom (3 / 2)) "alpha beta")
        = some ((0 : ℚ) + 3 / 2) from rfl]
    norm_num
  · have hsc : scoresFor (cfgDom (3 / 2)) "alpha beta" = [("a", 3 / 2), ("b", 1)] := by
      show [("a", (0 : ℚ) + 3 / 2), ("b", (0 : ℚ) + 1)] = [("a", 3 / 2), ("b", 1)]
      norm_num
    refine route_of_classifyIntent (by rfl) ?_
    refine classifyIntent_eval_pair (cfgDom (3 / 2)) "alpha beta" "a" "b" (3 / 2) 1 2 (3 / 4)
      [] personaA rfl rfl rfl (by rw [hsc]; norm_num [sortDesc, insertDesc]) hlen2 ?_ ?_ rfl rfl ?_
    · rw [MIN_THRESHOLD]
      norm_num
    · rw [DOMINANCE_FACTOR]
      norm_num
    · rw [jsMin]
      norm_num
  · rw [show mapGet "a" (scoresFor (cfgDom (7 / 5)) "alpha beta")
        = some ((0 : ℚ) + 7 / 5) from rfl]
    norm_num
  · rw [show mapGet "b" (scoresFor (cfgDom (7 / 5)) "alpha beta")
        = some ((0 : ℚ) + 1) from rfl]
    norm_num
  · have hsc : scoresFor (cfgDom (7 / 5)) "alpha beta" = [("a", 7 / 5), ("b", 1)] := by
      show [("a", (0 : ℚ) + 7 / 5), ("b", (0 : ℚ) + 1)] = [("a", 7 / 5), ("b", 1)]
      norm_num
    refine classifyIntent_eval_dominance_none (cfgDom (7 / 5)) "alpha beta" "a" "b" (7 / 5) 1
      [] (by rw [hsc]; norm_num [sortDesc, insertDesc]) ?_
    rw [DOMINANCE_FACTOR]
    norm_num
  · have hsc : scoresFor (cfgDom (7 / 5)) "alpha beta" = [("a", 7 / 5), ("b", 1)] := by
      show [("a", (0 : ℚ) + 7 / 5), ("b", (0 : ℚ) + 1)] = [("a", 7 / 5), ("b", 1)]
      norm_num
    have hci : classifyIntent (cfgDom (7 / 5)) "alpha beta" = none := by
      refine classifyIntent_eval_dominance_none (cfgDom (7 / 5)) "alpha beta" "a" "b" (7 / 5) 1
        [] (by rw [hsc]; norm_num [sortDesc, insertDesc]) ?_
      rw [DOMINANCE_FACTOR]
      norm_num
    unfold route
    rw [show detectMention (cfgDom (7 / 5)) "alpha beta" = none from rfl, hci]
    rfl

-- ---------------------------------------------------------------------------
-- Lemmas about the score map and the stable sort
-- ---------------------------------------------------------------------------

theorem mem_insertDesc {x y : String × ℚ} {l : List (String × ℚ)} :
    y ∈ insertDesc x l ↔ y = x ∨ y ∈ l := by
  induction l with
  | nil => simp [insertDesc]
  | cons z zs ih =>
    by_cases h : z.2 < x.2
    · simp [insertDesc, h]
    · simp [insertDesc, h, ih]
      tauto

theorem mem_foldl_insertDesc (l : List (String × ℚ)) (acc : List (String × ℚ))
    (y : String × ℚ) :
    y ∈ l.foldl (fun a x => insertDesc x a) acc ↔ y ∈ acc ∨ y ∈ l := by
  induction l generalizing acc with
  | nil => simp
  | cons x xs ih =>
    simp [List.foldl_cons, ih, mem_insertDesc]
    tauto

theorem mem_sortDesc {l : List (String × ℚ)} {y : String × ℚ} :
    y ∈ sortDesc l ↔ y ∈ l := by
  unfold sortDesc
  simpa using mem_foldl_insertDesc l [] y

theorem mem_keys_mapSet {k a : String} {v : ℚ} {m : List (String × ℚ)} :
    a ∈ (mapSet k v m).map Prod.fst ↔ a = k ∨ a ∈ m.map Prod.fst := by
  induction m with
  | nil => simp [mapSet]
  | cons e rest ih =>
    obtain ⟨k', v'⟩ := e
    by_cases h : k' = k
    · subst h
      simp [mapSet]
    · simp [mapSet, h, ih]
      tauto

theorem nodupKeys_mapSet {k : String} {v : ℚ} {m : List (String × ℚ)}
    (h : (m.map Prod.fst).Nodup) : ((mapSet k v m).map Prod.fst).Nodup := by
  induction m with
  | nil => simp [mapSet]
  | cons e rest ih =>
    obtain ⟨k', v'⟩ := e
    simp only [List.map_cons, List.nodup_cons] at h
    by_cases hk : k' = k
    · subst hk
      simpa [mapSet] using h
    · simp only [mapSet, if_neg hk, List.map_cons, List.nodup_cons]
      refine ⟨?_, ih h.2⟩
      rw [mem_keys_mapSet]
      rintro (he | he)
      · exact hk he
      · exact h.1 he

theorem nodupKeys_addMatches {ms : List (String × ℚ)} {sc : List (String × ℚ)}
    (h : (sc.map Prod.fst).Nodup) : ((addMatches ms sc).map Prod.fst).Nodup := by
  induction ms generalizing sc with
  | nil => simpa [addMatches]
  | cons e ms ih =>
    have : addMatches (e :: ms) sc
        = addMatches ms (mapSet e.1 ((mapGet e.1 sc).getD 0 + e.2) sc) := by
      simp [addMatches]
    rw [this]
    exact ih (nodupKeys_mapSet h)

theorem nodupKeys_scoresFor (cfg : RouterConfig) (msg : String) :
    ((scoresFor cfg msg).map Prod.fst).Nodup := by
  unfold scoresFor
  have hgen : ∀ (ps : List String) (acc : List (String × ℚ)),
      (acc.map Prod.fst).Nodup →
      ((ps.foldl (fun sc phrase =>
          match kmGet phrase (buildKeywordMap cfg.getAllKeywords) with
          | none => sc
          | some ms => addMatches ms sc) acc).map Prod.fst).Nodup := by
    intro ps
    induction ps with
    | nil => intro acc h; simpa
    | cons p ps ih =>
      intro acc h
      simp only [List.foldl_cons]
      cases hk : kmGet p (buildKeywordMap cfg.getAllKeywords) with
      | none => exact ih acc h
      | some ms => exact ih _ (nodupKeys_addMatches h)
  simpa using hgen (phrasesOf (tokenizeWords msg)) [] (by simp)

theorem mapGet_of_mem_nodup {m : List (String × ℚ)} {k : String} {v : ℚ}
    (hn : (m.map Prod.fst).Nodup) (hm : (k, v) ∈ m) : mapGet k m = some v := by
  induction m with
  | nil => simp at hm
  | cons e rest ih =>
    obtain ⟨k', v'⟩ := e
    simp only [List.map_cons, List.nodup_cons] at hn
    rcases List.mem_cons.mp hm with he | hm'
    · obtain ⟨h1, h2⟩ := Prod.mk.injEq .. ▸ he
      subst h1 h2
      show Option.map Prod.snd (List.find? (fun e => e.1 = k) ((k, v) :: rest)) = some v
      rw [List.find?_cons_of_pos _ (by simp)]
      rfl
    · have hk : k' ≠ k := by
        intro he
        subst he
        exact hn.1 (List.mem_map.mpr ⟨(k', v), hm', rfl⟩)
      show Option.map Prod.snd (List.find? (fun e => e.1 = k) ((k', v') :: rest)) = some v
      rw [List.find?_cons_of_neg _ (by simpa using hk)]
      exact ih hn.2 hm'

theorem sortDesc_head_mapGet {cfg : RouterConfig} {msg : String} {topId : String}
    {topScore : ℚ} {restS : List (String × ℚ)}
    (h : sortDesc (scoresFor cfg msg) = (topId, topScore) :: restS) :
    mapGet topId (scoresFor cfg msg) = some topScore := by
  have hm : (topId, topScore) ∈ sortDesc (scoresFor cfg msg) := by
    rw [h]
    exact List.mem_cons_self _ _
  exact mapGet_of_mem_nodup (nodupKeys_scoresFor cfg msg) (mem_sortDesc.mp hm)

/-- C4: whenever `route` returns method `intent`, the confidence equals
`min(top / max(tokenCount, 1), 1.0)` where `top` is the winning persona's
accumulated keyword weight in the score map and `tokenCount` the number of
tokens surviving tokenisation, and the normalised value (before capping) is
at least the `0.15` threshold. -/
theorem c4_intent_confidence (cfg : RouterConfig) (msg : String)
    (r : PersonaRouteResult) (h : route cfg msg = Except.ok r)
    (hm : r.method = RouteMethod.intent) :
    ∃ top : ℚ, mapGet r.persona.id (scoresFor cfg msg) = some top ∧
      r.confidence = jsMin (top / (Nat.max (tokenizeWords msg).length 1 : ℚ)) 1 ∧
      MIN_THRESHOLD ≤ top / (Nat.max (tokenizeWords msg).length 1 : ℚ) := by
  have hci := route_ok_intent h hm
  obtain ⟨-, -, topId, topScore, restS, hsort, hfind, hpid, hconf, hth, -⟩ :=
    classifyIntent_spec hci
  refine ⟨topScore, ?_, hconf, hth⟩
  rw [hpid]
  exact sortDesc_head_mapGet hsort

/-- Closed instantiation of `c4_intent_confidence`: the fixture intent
routing scores `1` over `3` tokens, confidence `1/3 ≥ 0.15`. -/
theorem c4_intent_confidence_witness :
    (route cfgIntentD "alpha report please" =
      Except.ok { persona := personaA, method := RouteMethod.intent,
                  confidence := 1 / 3, strippedMessage := none } ∧
      RouteMethod.intent = RouteMethod.intent) ∧
    ∃ top : ℚ, mapGet "a" (scoresFor cfgIntentD "alpha report please") = some top ∧
      (1 / 3 : ℚ) = jsMin (top / (Nat.max (tokenizeWords "alpha report please").length 1 : ℚ)) 1 ∧
      MIN_THRESHOLD ≤ top / (Nat.max (tokenizeWords "alpha report please").length 1 : ℚ) := by
  have hsc : scoresFor cfgIntentD "alpha report please" = [("a", 1)] := by
    show [("a", (0 : ℚ) + 1)] = [("a", 1)]
    norm_num
  have hlen3 : ((Nat.max (tokenizeWords "alpha report please").length 1 : ℕ) : ℚ) = 3 := by
    rw [show tokenizeWords "alpha report please" = ["alpha", "report", "please"] from rfl]
    norm_num
  have hroute : route cfgIntentD "alpha report please" =
      Except.ok { persona := personaA, method := RouteMethod.intent,
                  confidence := 1 / 3, strippedMessage := none } := by
    refine route_of_classifyIntent (by rfl) ?_
    refine classifyIntent_eval_single cfgIntentD "alpha report please" "a" 1 3 (1 / 3)
      personaA rfl rfl rfl (by rw [hsc]; rfl) hlen3 ?_ rfl rfl ?_
    · rw [MIN_THRESHOLD]
      norm_num
    · rw [jsMin]
      norm_num
  exact ⟨⟨hroute, rfl⟩, c4_intent_confidence cfgIntentD "alpha report please" _ hroute rfl⟩

/-- C5: whenever `route` returns method `intent`, the returned persona is not
the persona supplied by the configuration's `getDefault` accessor — intent
classification never selects the default/coordinator persona. -/
theorem c5_intent_not_default (cfg : RouterConfig) (msg : String)
    (r : PersonaRouteResult) (d : Persona) (h : route cfg msg = Except.ok r)
    (hm : r.method = RouteMethod.intent) (hd : cfg.getDefault = some d) :
    r.persona.id ≠ d.id := by
  have hci := route_ok_intent h hm
  obtain ⟨-, -, topId, topScore, restS, hsort, hfind, hpid, hconf, hth, hdef⟩ :=
    classifyIntent_spec hci
  rw [hpid]
  unfold isDefaultId at hdef
  rw [hd] at hdef
  simpa using hdef

/-- Closed instantiation of `c5_intent_not_default`: the fixture intent
winner `a` differs from the configured default persona `d`. -/
theorem c5_intent_not_default_witness :
    (route cfgIntentD "alpha report please" =
      Except.ok { persona := personaA, method := RouteMethod.intent,
                  confidence := 1 / 3, strippedMessage := none } ∧
      RouteMethod.intent = RouteMethod.intent ∧
      cfgIntentD.getDefault = some personaD) ∧
    personaA.id ≠ personaD.id := by
  have hsc : scoresFor cfgIntentD "alpha report please" = [("a", 1)] := by
    show [("a", (0 : ℚ) + 1)] = [("a", 1)]
    norm_num
  have hlen3 : ((Nat.max (tokenizeWords "alpha report please").length 1 : ℕ) : ℚ) = 3 := by
    rw [show tokenizeWords "alpha report please" = ["alpha", "report", "please"] from rfl]
    norm_num
  have hroute : route cfgIntentD "alpha report please" =
      Except.ok { persona := personaA, method := RouteMethod.intent,
                  confidence := 1 / 3, strippedMessage := none } := by
    refine route_of_classifyIntent (by rfl) ?_
    refine classifyIntent_eval_single cfgIntentD "alpha report please" "a" 1 3 (1 / 3)
      personaA rfl rfl rfl (by rw [hsc]; rfl) hlen3 ?_ rfl rfl ?_
    · rw [MIN_THRESHOLD]
      norm_num
    · rw [jsMin]
      norm_num
  exact ⟨⟨hroute, rfl, rfl⟩,
    c5_intent_not_default cfgIntentD "alpha report please" _ personaD hroute rfl rfl⟩

/-- C6: `route` raises the distinct "no default persona configured" error
exactly when Stage 1 and Stage 2 both yield nothing and `getDefault` returns
`null`; in every other case it returns a result. -/
theorem c6_missing_default_error (cfg : RouterConfig) (msg : String) (e : String) :
    route cfg msg = Except.error e ↔
      (e = "No default persona configured" ∧ detectMention cfg msg = none ∧
       classifyIntent cfg msg = none ∧ cfg.getDefault = none) := by
  unfold route
  cases hd : detectMention cfg msg with
  | some r0 => simp
  | none =>
    cases hi : classifyIntent cfg msg with
    | some r1 => simp
    | none =>
      cases hg : cfg.getDefault with
      | some dp => simp
      | none =>
        simp only [Except.error.injEq]
        constructor
        · intro he
          exact ⟨he.symm, trivial, trivial, trivial⟩
        · intro he
          exact he.1.symm

-- ---------------------------------------------------------------------------
-- Lemmas about the manager
-- ---------------------------------------------------------------------------

theorem applyUpdate_id (p : Persona) (u : PersonaUpdateInput) :
    (applyUpdate p u).id = p.id := rfl

theorem find?_update_map {db : List Persona} {id : String} {u : PersonaUpdateInput}
    {p : Persona} (h : db.find? (fun q => q.id = id) = some p) :
    (db.map (fun q => if q.id = id then applyUpdate q u else q)).find?
      (fun q => q.id = id) = some (applyUpdate p u) := by
  induction db with
  | nil => simp at h
  | cons q rest ih =>
    by_cases hq : q.id = id
    · rw [List.find?_cons_of_pos _ (by simpa using hq)] at h
      injection h with h'
      subst h'
      simp only [List.map_cons, if_pos hq]
      rw [List.find?_cons_of_pos _ (by simpa [applyUpdate_id] using hq)]
    · rw [List.find?_cons_of_neg _ (by simpa using hq)] at h
      simp only [List.map_cons, if_neg hq]
      rw [List.find?_cons_of_neg _ (by simpa using hq)]
      exact ih h

/-- C7: if `update(id, partial)` returns `true`, an immediately following
`getById(id)` reflects the updated store row — the successful write
invalidated the cache, so the read goes to the store — with no explicit
cache-clear call in between. -/
theorem c7_update_then_getById (s : ManagerState) (id : String)
    (u : PersonaUpdateInput) (p : Persona)
    (h1 : (Manager.update s id u).1 = true)
    (h2 : Store.getPersonaById s.db id = some p) :
    Manager.getById (Manager.update s id u).2 id = some (applyUpdate p u) := by
  have hany : s.db.any (fun q => q.id = id) = true := by
    by_contra hc
    have hfalse : s.db.any (fun q => q.id = id) = false := Bool.eq_false_iff.mpr hc
    unfold Manager.update Store.updatePersona at h1
    rw [hfalse] at h1
    simp at h1
  have hupd : Store.updatePersona s.db id u =
      (true, s.db.map (fun q => if q.id = id then applyUpdate q u else q)) := by
    unfold Store.updatePersona
    rw [hany]
    simp
  have hmu : Manager.update s id u =
      (true,
        { s with
            db := s.db.map (fun q => if q.id = id then applyUpdate q u else q),
            cache := none }) := by
    unfold Manager.update
    rw [hupd]
    rfl
  rw [hmu]
  show Store.getPersonaById
      (s.db.map (fun q => if q.id = id then applyUpdate q u else q)) id
    = some (applyUpdate p u)
  exact find?_update_map h2

/-- Closed instantiation of `c7_update_then_getById`: renaming `personaW7`
through the manager (with a warm cache) is visible to the next `getById`. -/
theorem c7_update_then_getById_witness :
    ((Manager.update stateW7 "w7" updW7).1 = true ∧
      Store.getPersonaById stateW7.db "w7" = some personaW7) ∧
    Manager.getById (Manager.update stateW7 "w7" updW7).2 "w7"
      = some (applyUpdate personaW7 updW7) :=
  ⟨⟨by decide, by decide⟩,
   c7_update_then_getById stateW7 "w7" updW7 personaW7 (by decide) (by decide)⟩

/-- C8: `seedDefaults` is a no-op whenever personas already exist — the call
returns after the `hasPersonas` read, issuing no store write and leaving the
persona rows and routing keywords unchanged. -/
theorem c8_seedDefaults_idempotent (s : ManagerState) (a : Option OnboardingAnswers)
    (h : (Manager.hasPersonas s).1 = true) :
    Manager.seedDefaults s a = Except.ok ((Manager.hasPersonas s).2, []) ∧
    ((Manager.hasPersonas s).2).db = s.db ∧
    ((Manager.hasPersonas s).2).kws = s.kws := by
  refine ⟨?_, ?_, ?_⟩
  · unfold Manager.seedDefaults
    dsimp only
    rw [h]
    simp
  · rfl
  · rfl

/-- Closed instantiation of `c8_seedDefaults_idempotent` at the state
produced by a first `seedDefaults()` from the empty manager (which seeds the
full catalog), so a second call is a no-op. -/
theorem c8_seedDefaults_idempotent_witness :
    (Manager.hasPersonas seededState).1 = true ∧
    (Manager.seedDefaults seededState none
        = Except.ok ((Manager.hasPersonas seededState).2, []) ∧
      ((Manager.hasPersonas seededState).2).db = seededState.db ∧
      ((Manager.hasPersonas seededState).2).kws = seededState.kws) :=
  ⟨by decide, c8_seedDefaults_idempotent seededState none (by decide)⟩

-- ---------------------------------------------------------------------------
-- Lemmas about the onboarding generator
-- ---------------------------------------------------------------------------

theorem gapTable_find {g pid : String} (h : GAP_TO_PERSONA g = some pid) :
    ∃ t : PersonaTemplate,
      getDefaultTemplates.find? (fun x => x.id = pid) = some t ∧ t.id = pid := by
  unfold GAP_TO_PERSONA at h
  split_ifs at h
  all_goals try (injection h with h'; subst h')
  all_goals
    first
      | exact ⟨CHIEF_OF_STAFF, rfl, rfl⟩
      | exact ⟨GROWTH_ADVISOR, rfl, rfl⟩
      | exact ⟨FINANCE_OPS, rfl, rfl⟩
      | exact ⟨PRODUCT_MANAGER, rfl, rfl⟩
      | exact ⟨SALES_ADVISOR, rfl, rfl⟩
      | exact ⟨LEGAL_ADVISOR, rfl, rfl⟩
      | exact ⟨CREATIVE_DIRECTOR, rfl, rfl⟩
      | exact ⟨CTO_TECH, rfl, rfl⟩

theorem any_id_eq_contains (res : List PersonaTemplate) (pid : String) :
    res.any (fun x => x.id = pid) = (res.map (fun x => x.id)).contains pid := by
  induction res with
  | nil => rfl
  | cons t rest ih =>
    by_cases h : t.id = pid
    · simp [List.any_cons, List.contains_cons, h]
    · simp [List.any_cons, List.contains_cons, h, ih, Ne.symm h]

theorem gapFold_ids (gaps : List String) :
    ∀ (res : List PersonaTemplate) (acc : List String),
      res.map (fun t => t.id) = acc →
      acc.contains "chief-of-staff" = true →
      (gaps.foldl (gapStep getDefaultTemplates) res).map (fun t => t.id) =
        gaps.foldl
          (fun acc gap =>
            match GAP_TO_PERSONA gap with
            | none => acc
            | some pid => if acc.contains pid then acc else acc ++ [pid]) acc := by
  induction gaps with
  | nil =>
    intro res acc h _
    simpa using h
  | cons g gaps ih =>
    intro res acc hmap hcos
    simp only [List.foldl_cons]
    cases hg : GAP_TO_PERSONA g with
    | none =>
      rw [show gapStep getDefaultTemplates res g = res by unfold gapStep; rw [hg]]
      dsimp only
      exact ih res acc hmap hcos
    | some pid =>
      dsimp only
      by_cases hc : pid = "chief-of-staff"
      · subst hc
        rw [show gapStep getDefaultTemplates res g = res by
              unfold gapStep; rw [hg]; simp]
        rw [if_pos hcos]
        exact ih res acc hmap hcos
      · obtain ⟨t, hfind, htid⟩ := gapTable_find hg
        have hany : res.any (fun x => x.id = t.id) = acc.contains pid := by
          rw [htid, ← hmap]
          exact any_id_eq_contains res pid
        have h1 : gapStep getDefaultTemplates res g =
            (if res.any (fun x => x.id = t.id) then res else res ++ [t]) := by
          unfold gapStep
          rw [hg]
          dsimp only
          rw [if_neg hc, hfind]
        cases hca : acc.contains pid with
        | true =>
          rw [h1, hany, hca, if_pos rfl, if_pos rfl]
          exact ih res acc hmap hcos
        | false =>
          rw [h1, hany, hca, if_neg Bool.false_ne_true, if_neg Bool.false_ne_true]
          refine ih (res ++ [t]) (acc ++ [pid]) ?_ ?_
          · simp [hmap, htid]
          · have hm : "chief-of-staff" ∈ acc := by simpa using hcos
            have : ("chief-of-staff" : String) ∈ acc ++ [pid] :=
              List.mem_append.mpr (Or.inl hm)
            simpa using this

/-- C10: for every onboarding answer set, the template ids produced by
`generatePersonas` are exactly: `chief-of-staff` first, then the ids of the
gaps resolved through the fixed gap table in order, skipping identifiers
absent from the table and ids already present (first-seen order). -/
theorem c10_generatePersonas_ids (answers : OnboardingAnswers) :
    Except.map (fun l => l.map (fun t => t.id)) (generatePersonasE answers)
      = Except.ok (gapIdsSpec answers.gaps) := by
  have hfind : getDefaultTemplates.find? (fun t => t.id = "chief-of-staff")
      = some CHIEF_OF_STAFF := rfl
  unfold generatePersonasE
  rw [hfind]
  dsimp only
  simp only [Except.map]
  have hAF : ∀ (role : FounderRole) (l : List PersonaTemplate),
      (applyFounderContext role l).map (fun t => t.id) = l.map (fun t => t.id) := by
    intro role l
    cases l <;> simp [applyFounderContext]
  have hSE : ∀ (st : StartupStage) (l : List PersonaTemplate),
      (l.map (stageEnrich st)).map (fun t => t.id) = l.map (fun t => t.id) := by
    intro st l
    simp [List.map_map, stageEnrich, Function.comp]
  rw [hAF, hSE]
  unfold gapIdsSpec
  exact congrArg Except.ok
    (gapFold_ids answers.gaps [CHIEF_OF_STAFF] ["chief-of-staff"] rfl rfl)
